import Mathlib

/-!
# Verification of the jira-util CLI orchestration logic

Shallow embedding of the command handlers of the jira-util repository
(`src/index.js` and the `setVersion` variant in `src/unnamed/part_002`).

The remote tracker API (`jira.searchJira`, `jira.listTransitions`,
`jira.transitionIssue`, `jira.getAllSprints`, `jira.getBoardIssuesForSprint`,
`jira.getVersions`, `jira.updateIssue`) is modelled as an environment of
`Except`-valued results: `Except.error e` models a rejected promise carrying
error value `e`, `Except.ok v` a fulfilled one.  Terminal colouring (chalk)
is the identity on strings, as the spec places formatting out of scope.
JavaScript `undefined`/`null` field values are modelled with `Option`;
`console.log` of an `undefined` value prints the string "undefined".
-/

namespace JiraUtil

/-- JS truthiness of a possibly-absent string field: `undefined`/`null`
and the empty string are falsy. -/
def jsTruthy : Option String → Bool
  | none => false
  | some s => !s.isEmpty

/-- What `console.log` prints for a possibly-`undefined` string value. -/
def jsShow : Option String → String
  | none => "undefined"
  | some s => s

/-- An issue status object (`issue.fields.status`). -/
structure Status where
  name : String
deriving Repr, DecidableEq

/-- An issue type object (`issue.fields.issuetype`). -/
structure IssueType where
  name : String
deriving Repr, DecidableEq

/-- A project version object as returned by `jira.getVersions`. -/
structure VersionObj where
  name : String
  vid : Option String
deriving Repr, DecidableEq

/-- A workflow transition as returned by `jira.listTransitions`:
`id` is checked for truthiness before use, so it is optional. -/
structure Transition where
  name : String
  id : Option String
deriving Repr, DecidableEq

/-- The `fields` object of an issue; every member may be absent. -/
structure IssueFields where
  summary : Option String
  status : Option Status
  issuetype : Option IssueType
  fixVersions : Option (List VersionObj)
  customfield_10101 : Option String
deriving Repr, DecidableEq

/-- An issue record: `id` (numeric identifier used by `updateIssue`),
`key` (e.g. "CV-123") and the `fields` object, each possibly absent. -/
structure Issue where
  id : Option String
  key : Option String
  fields : Option IssueFields
deriving Repr, DecidableEq

/-- Tracker environment for the Close-Issues workflow:
the outcomes of `jira.listTransitions` (by issue key) and of
`jira.transitionIssue` (by issue key and transition id). -/
structure CloseEnv where
  listTransitionsOf : String → Except String (List Transition)
  transitionIssueOf : String → String → Except String Unit

/-- Count of tracker calls made by one run: `listTransitions` calls and
`transitionIssue` calls. -/
structure CallTrace where
  listCalls : Nat
  applyCalls : Nat
deriving Repr, DecidableEq

def CallTrace.add (a b : CallTrace) : CallTrace :=
  ⟨a.listCalls + b.listCalls, a.applyCalls + b.applyCalls⟩

/-- The per-issue line for an already-Closed issue (chalk stripped). -/
def alreadyClosedLine (key : String) : String :=
  key ++ " - Issue already Closed"

/-- The per-issue line for an issue that is neither Closed nor Resolved. -/
def notResolvedLine (key : String) : String :=
  key ++ " - Issue not Resolved yet, can\x27t be closed"

/-- The per-issue line after a successful close transition. -/
def closedLine (key : String) : String :=
  key ++ " - Closed"

/-- The per-issue line when no usable "Close Issue" transition exists. -/
def noTransitionLine (key : String) : String :=
  key ++ " - Close Transition not available, reason unknown..."

/-- Embedding of `closeIssue` (src/index.js lines 123-147).
Returns the promise outcome (`Except.ok none` models resolving with
`undefined`, i.e. the guard-clause skip) paired with the trace of tracker
calls this chain performed. -/
def closeIssue (env : CloseEnv) (issue : Option Issue) :
    Except String (Option String) × CallTrace :=
  match issue with
  | none => (Except.ok none, ⟨0, 0⟩)
  | some i =>
    match i.key, i.fields with
    | some key, some flds =>
      if key.isEmpty then (Except.ok none, ⟨0, 0⟩)
      else
        match flds.status with
        | none => (Except.ok none, ⟨0, 0⟩)
        | some st =>
          if st.name = "Closed" then
            (Except.ok (some (alreadyClosedLine key)), ⟨0, 0⟩)
          else if st.name ≠ "Resolved" then
            (Except.ok (some (notResolvedLine key)), ⟨0, 0⟩)
          else
            match env.listTransitionsOf key with
            | Except.error e => (Except.error e, ⟨1, 0⟩)
            | Except.ok ts =>
              match ts.find? (fun t => t.name = "Close Issue") with
              | some ct =>
                if jsTruthy ct.id then
                  match env.transitionIssueOf key (jsShow ct.id) with
                  | Except.error e => (Except.error e, ⟨1, 1⟩)
                  | Except.ok _ => (Except.ok (some (closedLine key)), ⟨1, 1⟩)
                else
                  (Except.ok (some (noTransitionLine key)), ⟨1, 0⟩)
              | none =>
                (Except.ok (some (noTransitionLine key)), ⟨1, 0⟩)
    | _, _ => (Except.ok none, ⟨0, 0⟩)

/-- Semantics of `Promise.all` over already-settled outcomes: fulfilled with
the list of values when all fulfil, otherwise rejected with the first
rejection. -/
def collectAll : List (Except String (Option String)) →
    Except String (List (Option String))
  | [] => Except.ok []
  | r :: rs =>
    match r with
    | Except.error e => Except.error e
    | Except.ok v =>
      match collectAll rs with
      | Except.error e => Except.error e
      | Except.ok vs => Except.ok (v :: vs)

/-- Embedding of `closeIssues` (src/index.js lines 149-153) applied to an
already-fetched issue list: fans out `closeIssue` over every record, joins
with `Promise.all`, and accumulates the calls made by all the chains (the
chains run to completion even when the join rejects). -/
def closeIssues (env : CloseEnv) (issues : List (Option Issue)) :
    Except String (List (Option String)) × CallTrace :=
  let results := issues.map (closeIssue env)
  (collectAll (results.map Prod.fst),
   results.foldl (fun acc r => acc.add r.snd) ⟨0, 0⟩)

/-- The lines actually printed by `closeIssues`: on fulfilment,
`responses.forEach(res => console.log(res))` prints every response
(`undefined` included); on rejection the `forEach` never runs. -/
def closeIssuesLines (env : CloseEnv) (issues : List (Option Issue)) :
    List String :=
  match (closeIssues env issues).fst with
  | Except.ok rs => rs.map jsShow
  | Except.error _ => []

/-! ## Release-Notes workflow (src/index.js lines 160-203) -/

/-- Tracker environment for query-based commands: the outcome of
`jira.searchJira` for the query the workflow issues. -/
structure NotesEnv where
  searchResult : Except String (Option (List Issue))

/-- Embedding of `search` (src/index.js lines 42-54) restricted to its
returned value: an empty query returns `[]`; a rejected `searchJira` is
caught (`handleError`) and the function resolves with `undefined` (`none`);
a fulfilled result yields `results.issues` (or `[]` when absent).  The
`forEach` printing `i.fields.summary` throws a TypeError when some issue
has no `fields`; that throw happens inside the `try`, is caught, and the
function again resolves with `undefined`. -/
def searchIssues (env : NotesEnv) (query : String) : Option (List Issue) :=
  if query.isEmpty then some []
  else
    match env.searchResult with
    | Except.error _ => none
    | Except.ok r =>
      let issues := r.getD []
      if issues.all (fun i => i.fields.isSome) then some issues else none

/-- Embedding of `getIssuesByFixVersion` (src/index.js lines 112-115). -/
def getIssuesByFixVersion (env : NotesEnv) (version : String) :
    Option (List Issue) :=
  if version.isEmpty then some []
  else searchIssues env ("fixVersion=" ++ version)

/-- One record of a release-notes category. -/
structure NoteData where
  id : Option String
  type : String
  description : Option String
deriving Repr, DecidableEq

/-- The release-notes aggregate returned by `generateReleaseNotes`. -/
structure ReleaseNotes where
  version : String
  newFeatures : List NoteData
  improved : List NoteData
  fixes : List NoteData
  other : List NoteData
deriving Repr, DecidableEq

/-- The `data` object built for one issue inside the `forEach`
(src/index.js lines 179-183): reading `i.fields.issuetype.name` throws a
TypeError when `fields` or `issuetype` is absent. -/
def toNoteData (i : Issue) : Except String NoteData :=
  match i.fields with
  | none => Except.error "TypeError"
  | some flds =>
    match flds.issuetype with
    | none => Except.error "TypeError"
    | some it => Except.ok ⟨i.key, it.name, flds.customfield_10101⟩

/-- The categorizing `forEach` (src/index.js lines 178-194): builds the four
category lists in input order; a TypeError thrown at any issue aborts the
whole loop (earlier issues first). -/
def categorize : List Issue →
    Except String (List NoteData × List NoteData × List NoteData × List NoteData)
  | [] => Except.ok ([], [], [], [])
  | i :: rest =>
    match toNoteData i with
    | Except.error e => Except.error e
    | Except.ok d =>
      match categorize rest with
      | Except.error e => Except.error e
      | Except.ok (nf, im, fx, ot) =>
        if d.type = "New Feature" then Except.ok (d :: nf, im, fx, ot)
        else if d.type = "Improvement" then Except.ok (nf, d :: im, fx, ot)
        else if d.type = "Bug" then Except.ok (nf, im, d :: fx, ot)
        else Except.ok (nf, im, fx, d :: ot)

/-- Embedding of `generateReleaseNotes` (src/index.js lines 160-203).
The `try` only wraps the query, and `getIssuesByFixVersion` never rejects
(its failures are absorbed inside `search`), so the catch arm is dead; a
TypeError thrown by the categorizing `forEach`, by contrast, is not caught
and rejects the handler. -/
def generateReleaseNotes (env : NotesEnv) (version : String) :
    Except String (Option ReleaseNotes) :=
  match getIssuesByFixVersion env version with
  | none => Except.ok none
  | some is =>
    if is.isEmpty then Except.ok none
    else
      match categorize is with
      | Except.error e => Except.error e
      | Except.ok (nf, im, fx, ot) =>
        Except.ok (some ⟨version, nf, im, fx, ot⟩)

/-! ## Set-Version workflow (src/unnamed/part_002 lines 210-278) -/

/-- A sprint record from `jira.getAllSprints(...).values`. -/
structure Sprint where
  id : Option String
deriving Repr, DecidableEq

/-- Tracker environment for `setVersion`: outcomes of the sprint lookup
(`values` array), the board-issue fetch (its `issues` member, possibly
absent), the version list (possibly null, entries possibly null), and the
per-issue `updateIssue` call keyed by the issue `id`. -/
structure SetVersionEnv where
  sprintValues : Except String (List Sprint)
  boardIssues : Except String (Option (List Issue))
  versions : Except String (Option (List (Option VersionObj)))
  updateIssue : Option String → Except String Unit

/-- Embedding of `isIssueClosed` (src/unnamed/part_002 lines 215-217). -/
def isIssueClosed (issue : Issue) : Bool :=
  match issue.fields with
  | none => false
  | some f =>
    match f.status with
    | none => false
    | some st => st.name = "Closed"

/-- Embedding of `doesIssueHaveFixVersion` (src/unnamed/part_002
lines 219-221). -/
def doesIssueHaveFixVersion (issue : Issue) : Bool :=
  match issue.fields with
  | none => false
  | some f =>
    match f.fixVersions with
    | none => false
    | some vs => vs.length > 0

/-- The version-scan `for` loop with `break` (src/unnamed/part_002
lines 242-248): first non-null entry whose name equals the target wins. -/
def findVersion : List (Option VersionObj) → String → Option VersionObj
  | [], _ => none
  | v :: rest, name =>
    match v with
    | some vo => if vo.name = name then some vo else findVersion rest name
    | none => findVersion rest name

/-- The header line printed on entry to `setVersion`. -/
def settingHeader (version : String) : String :=
  "Setting fix version to: " ++ version

/-- The abort line when no active sprint exists. -/
def sprintNotFoundLine : String := "Active sprint not found"

/-- The abort line when the target version name is not in the project. -/
def versionNotFoundLine (version : String) : String :=
  "Version \"" ++ version ++ "\" not found"

/-- The skip line for a closed or already-versioned issue. -/
def skipLine (key : Option String) : String :=
  "\t" ++ jsShow key ++ " already has a version or is closed"

/-- The success line after updating one issue. -/
def updatedLine (key : Option String) : String :=
  "\t" ++ jsShow key

/-- The final tally line. -/
def tallyLine (updatedCount issueCount : Nat) : String :=
  "Updated " ++ toString updatedCount ++ " issues out of " ++
    toString issueCount ++ " total issues."

/-- The per-issue `for` loop of `setVersion` (src/unnamed/part_002
lines 262-275), processed strictly sequentially: returns the printed lines
and the list of issue ids passed to `jira.updateIssue`; a rejected update
aborts the whole handler. -/
def setVersionLoop (env : SetVersionEnv) :
    List Issue → Except String (List String × List (Option String))
  | [] => Except.ok ([], [])
  | i :: rest =>
    if !isIssueClosed i && !doesIssueHaveFixVersion i then
      match env.updateIssue i.id with
      | Except.error e => Except.error e
      | Except.ok _ =>
        match setVersionLoop env rest with
        | Except.error e => Except.error e
        | Except.ok (lines, upds) =>
          Except.ok (updatedLine i.key :: lines, i.id :: upds)
    else
      match setVersionLoop env rest with
      | Except.error e => Except.error e
      | Except.ok (lines, upds) =>
        Except.ok (skipLine i.key :: lines, upds)

/-- Embedding of `setVersion` (src/unnamed/part_002 lines 224-278): returns
the printed lines together with the ids passed to `updateIssue`.  The
`sprintId` parameter is accepted but unused in the source, so it is not
modelled.  There is no version-creation call anywhere in the handler. -/
def setVersion (env : SetVersionEnv) (version : String) :
    Except String (List String × List (Option String)) :=
  match env.sprintValues with
  | Except.error e => Except.error e
  | Except.ok sprints =>
    match sprints.head? with
    | none => Except.ok ([settingHeader version, sprintNotFoundLine], [])
    | some sp =>
      if !jsTruthy sp.id then
        Except.ok ([settingHeader version, sprintNotFoundLine], [])
      else
        match env.boardIssues with
        | Except.error e => Except.error e
        | Except.ok bi =>
          match env.versions with
          | Except.error e => Except.error e
          | Except.ok vs =>
            match findVersion (vs.getD []) version with
            | none =>
              Except.ok ([settingHeader version, versionNotFoundLine version], [])
            | some _ =>
              let issues := bi.getD []
              match setVersionLoop env issues with
              | Except.error e => Except.error e
              | Except.ok (lines, upds) =>
                Except.ok
                  (settingHeader version :: lines ++
                     [tallyLine upds.length issues.length],
                   upds)

/-! ## Concrete fixtures used by witnesses and counterexamples -/

/-- Fields object carrying only a status with the given name. -/
def statusFields (s : String) : IssueFields :=
  ⟨none, some ⟨s⟩, none, none, none⟩

def issueResolvedP1 : Issue := ⟨none, some "P-1", some (statusFields "Resolved")⟩

def issueClosedP2 : Issue := ⟨none, some "P-2", some (statusFields "Closed")⟩

def issueOpenP3 : Issue := ⟨none, some "P-3", some (statusFields "Open")⟩

def issueNoStatus : Issue := ⟨none, some "P-9", some ⟨none, none, none, none, none⟩⟩

/-- Environment whose transition list is always empty and whose transitions
always succeed. -/
def envNoTrans : CloseEnv :=
  ⟨fun _ => Except.ok [], fun _ _ => Except.ok ()⟩

/-- Environment offering a usable "Close Issue" transition everywhere. -/
def envWithClose : CloseEnv :=
  ⟨fun _ => Except.ok [Transition.mk "Close Issue" (some "2")],
   fun _ _ => Except.ok ()⟩

/-- Environment whose `listTransitions` always rejects. -/
def envListFails : CloseEnv :=
  ⟨fun _ => Except.error "network down", fun _ _ => Except.ok ()⟩

/-- Environment whose `transitionIssue` always rejects. -/
def envApplyFails : CloseEnv :=
  ⟨fun _ => Except.ok [Transition.mk "Close Issue" (some "2")],
   fun _ _ => Except.error "HTTP 500"⟩

/-! ## C1: non-Resolved issues get a line and no tracker call -/

/-- C1: for an issue whose status is not "Resolved", `closeIssue` makes no
`listTransitions` and no `transitionIssue` call; a "Closed" status yields the
"Issue already Closed" line and any other non-Resolved status yields the
"not Resolved yet" line. -/
theorem closeIssue_non_resolved_no_calls (env : CloseEnv) (idv : Option String)
    (key : String) (flds : IssueFields) (st : Status)
    (hke : key.isEmpty = false)
    (hs : flds.status = some st)
    (hnr : st.name ≠ "Resolved") :
    (closeIssue env (some ⟨idv, some key, some flds⟩)).snd = ⟨0, 0⟩ ∧
    (st.name = "Closed" →
      (closeIssue env (some ⟨idv, some key, some flds⟩)).fst =
        Except.ok (some (alreadyClosedLine key))) ∧
    (st.name ≠ "Closed" →
      (closeIssue env (some ⟨idv, some key, some flds⟩)).fst =
        Except.ok (some (notResolvedLine key))) := by
  by_cases hc : st.name = "Closed"
  · refine ⟨?_, fun _ => ?_, fun h => absurd hc h⟩ <;>
      simp [closeIssue, hke, hs, hc]
  · refine ⟨?_, fun h => absurd h hc, fun _ => ?_⟩ <;>
      simp [closeIssue, hke, hs, hc, hnr]

/-- C1 witness: evaluated on a concrete Closed issue. -/
theorem closeIssue_non_resolved_no_calls_witness :
    ("P-2".isEmpty = false) ∧
    ((closeIssue envNoTrans (some ⟨none, some "P-2", some (statusFields "Closed")⟩)).snd = ⟨0, 0⟩ ∧
     ("Closed" = "Closed" →
       (closeIssue envNoTrans (some ⟨none, some "P-2", some (statusFields "Closed")⟩)).fst =
         Except.ok (some (alreadyClosedLine "P-2"))) ∧
     ("Closed" ≠ "Closed" →
       (closeIssue envNoTrans (some ⟨none, some "P-2", some (statusFields "Closed")⟩)).fst =
         Except.ok (some (notResolvedLine "P-2")))) :=
  ⟨by decide,
   closeIssue_non_resolved_no_calls envNoTrans none "P-2" (statusFields "Closed")
     ⟨"Closed"⟩ (by decide) rfl (by decide)⟩

/-! ## C10: status matching is exact and case-sensitive -/

/-- Character-level lowercasing of a string, used to express "differs only
in letter case". -/
def lowerChars (s : String) : List Char := s.data.map Char.toLower

/-- C10: a status differing from "Closed"/"Resolved" only in letter case
takes the "not Resolved yet" branch with zero tracker calls. -/
theorem closeIssue_status_case_sensitive (env : CloseEnv) (idv : Option String)
    (key : String) (flds : IssueFields) (st : Status)
    (hke : key.isEmpty = false)
    (hs : flds.status = some st)
    (hcase : lowerChars st.name = lowerChars "Closed" ∨
      lowerChars st.name = lowerChars "Resolved")
    (hne1 : st.name ≠ "Closed") (hne2 : st.name ≠ "Resolved") :
    closeIssue env (some ⟨idv, some key, some flds⟩) =
      (Except.ok (some (notResolvedLine key)), ⟨0, 0⟩) := by
  simp [closeIssue, hke, hs, hne1, hne2]

/-- C10 witness: evaluated on the lowercase status "closed". -/
theorem closeIssue_status_case_sensitive_witness :
    (lowerChars "closed" = lowerChars "Closed" ∨
      lowerChars "closed" = lowerChars "Resolved") ∧
    closeIssue envNoTrans (some ⟨none, some "P-4", some (statusFields "closed")⟩) =
      (Except.ok (some (notResolvedLine "P-4")), ⟨0, 0⟩) :=
  ⟨Or.inl (by decide),
   closeIssue_status_case_sensitive envNoTrans none "P-4" (statusFields "closed")
     ⟨"closed"⟩ (by decide) rfl (Or.inl (by decide)) (by decide) (by decide)⟩

/-! ## C2: Resolved issues fetch transitions and close when available -/

/-- C2: for a Resolved issue, `closeIssue` fetches the transitions once; if
the search finds a "Close Issue" transition with a truthy id and the apply
call succeeds, exactly one `transitionIssue` call happens and the "Closed"
line results; if nothing named "Close Issue" is found, no apply call happens
and the "not available" line results. -/
theorem closeIssue_resolved_transition (env : CloseEnv) (idv : Option String)
    (key : String) (flds : IssueFields) (st : Status) (ts : List Transition)
    (hke : key.isEmpty = false)
    (hs : flds.status = some st)
    (hres : st.name = "Resolved")
    (hl : env.listTransitionsOf key = Except.ok ts) :
    (∀ ct : Transition,
      ts.find? (fun t => t.name = "Close Issue") = some ct →
      jsTruthy ct.id = true →
      env.transitionIssueOf key (jsShow ct.id) = Except.ok () →
      closeIssue env (some ⟨idv, some key, some flds⟩) =
        (Except.ok (some (closedLine key)), ⟨1, 1⟩)) ∧
    (ts.find? (fun t => t.name = "Close Issue") = none →
      closeIssue env (some ⟨idv, some key, some flds⟩) =
        (Except.ok (some (noTransitionLine key)), ⟨1, 0⟩)) := by
  constructor
  · intro ct hfind htr happ
    simp [closeIssue, hke, hs, hres, hl, hfind, htr, happ]
  · intro hfind
    simp [closeIssue, hke, hs, hres, hl, hfind]

/-- C2 witness: evaluated on a Resolved issue with a usable transition and
on one without any "Close Issue" transition. -/
theorem closeIssue_resolved_transition_witness :
    closeIssue envWithClose (some issueResolvedP1) =
      (Except.ok (some (closedLine "P-1")), ⟨1, 1⟩) ∧
    closeIssue envNoTrans (some issueResolvedP1) =
      (Except.ok (some (noTransitionLine "P-1")), ⟨1, 0⟩) :=
  ⟨(closeIssue_resolved_transition envWithClose none "P-1" (statusFields "Resolved")
      ⟨"Resolved"⟩ [Transition.mk "Close Issue" (some "2")]
      (by decide) rfl rfl rfl).1
     (Transition.mk "Close Issue" (some "2")) rfl (by decide) rfl,
   (closeIssue_resolved_transition envNoTrans none "P-1" (statusFields "Resolved")
      ⟨"Resolved"⟩ [] (by decide) rfl rfl rfl).2 rfl⟩

/-! ## C3: the join is Promise.all, not an all-settle join -/

/-- Whether a settled per-issue outcome is fulfilled. -/
def isOkResult : Except String (Option String) → Bool
  | Except.ok _ => true
  | Except.error _ => false

/-- The line one record contributes when its chain fulfils. -/
def lineOf (env : CloseEnv) (rec : Option Issue) : String :=
  match (closeIssue env rec).fst with
  | Except.ok v => jsShow v
  | Except.error _ => ""

theorem collectAll_all_ok (rs : List (Except String (Option String)))
    (h : rs.all isOkResult = true) :
    ∃ vs, collectAll rs = Except.ok vs ∧
      vs.map jsShow = rs.map (fun r =>
        match r with
        | Except.ok v => jsShow v
        | Except.error _ => "") := by
  induction rs with
  | nil => exact ⟨[], rfl, rfl⟩
  | cons r rs ih =>
    simp only [List.all_cons, Bool.and_eq_true] at h
    obtain ⟨vs, hv, hm⟩ := ih h.2
    cases r with
    | ok v => exact ⟨v :: vs, by simp [collectAll, hv], by simp [hm]⟩
    | error e => simp [isOkResult] at h

/-- C3 counterexample: two issues, the first of which hits a rejecting
`listTransitions`; the second chain fulfils with the "already Closed" line,
yet the `Promise.all` join rejects and no line at all is printed — the
failure does suppress the sibling result, contrary to the claimed
all-settle join. -/
theorem closeIssues_rejection_suppresses_siblings :
    (closeIssue envListFails (some issueClosedP2)).fst =
      Except.ok (some (alreadyClosedLine "P-2")) ∧
    (closeIssues envListFails [some issueResolvedP1, some issueClosedP2]).fst =
      Except.error "network down" ∧
    closeIssuesLines envListFails [some issueResolvedP1, some issueClosedP2] = [] :=
  ⟨rfl, rfl, rfl⟩

/-- C3 amended: the per-issue chains are joined with `Promise.all`; when
every chain fulfils, the result lines are printed in the original issue
order (one line per record, in input order). -/
theorem closeIssues_all_fulfil_order (env : CloseEnv) (issues : List (Option Issue))
    (h : (issues.map (fun rec => (closeIssue env rec).fst)).all isOkResult = true) :
    closeIssuesLines env issues = issues.map (lineOf env) := by
  obtain ⟨vs, hv, hm⟩ := collectAll_all_ok _ h
  have hfst : (closeIssues env issues).fst = Except.ok vs := by
    simpa [closeIssues, List.map_map, Function.comp] using hv
  unfold closeIssuesLines
  rw [hfst]
  show vs.map jsShow = _
  rw [hm, List.map_map]
  rfl

/-- C3 witness: two fulfilled chains print their lines in input order. -/
theorem closeIssues_all_fulfil_order_witness :
    closeIssuesLines envNoTrans [some issueClosedP2, some issueOpenP3] =
      [alreadyClosedLine "P-2", notResolvedLine "P-3"] :=
  (closeIssues_all_fulfil_order envNoTrans [some issueClosedP2, some issueOpenP3]
      (by decide)).trans (by decide)

/-! ## C8: a skipped record still prints the line "undefined" -/

/-- A record that the guard clause of `closeIssue` skips: absent record,
absent or empty key, absent fields, or absent status. -/
def skippedRecord : Option Issue → Bool
  | none => true
  | some i =>
    match i.key, i.fields with
    | some k, some f => k.isEmpty || f.status.isNone
    | _, _ => true

/-- C8 counterexample: a record whose status is missing makes `closeIssue`
resolve with `undefined`, and the workflow's `forEach` then prints the line
"undefined" for it — an output line is printed, contrary to the claim. -/
theorem closeIssues_prints_undefined_for_skipped :
    closeIssuesLines envNoTrans [some issueNoStatus] = ["undefined"] := rfl

/-- C8 amended: for a record the guard clause skips, `closeIssue` makes no
tracker call and yields no result string, but `closeIssues` still prints
the line "undefined" for that record. -/
theorem closeIssue_skipped_no_calls_but_line (env : CloseEnv) (rec : Option Issue)
    (h : skippedRecord rec = true) :
    closeIssue env rec = (Except.ok none, ⟨0, 0⟩) ∧
    closeIssuesLines env [rec] = ["undefined"] := by
  have h1 : closeIssue env rec = (Except.ok none, ⟨0, 0⟩) := by
    obtain _ | ⟨idv, k, f⟩ := rec
    · rfl
    · obtain _ | k := k
      · rfl
      · obtain _ | f := f
        · rfl
        · simp only [skippedRecord, Bool.or_eq_true] at h
          rcases h with h | h
          · simp [closeIssue, h]
          · rw [Option.isNone_iff_eq_none] at h
            by_cases hk : k.isEmpty <;> simp [closeIssue, hk, h]
  refine ⟨h1, ?_⟩
  have h2 : closeIssues env [rec] = (Except.ok [none], ⟨0, 0⟩) := by
    simp [closeIssues, h1, collectAll, CallTrace.add]
  simp [closeIssuesLines, h2, jsShow]

/-- C8 witness: evaluated on a record with no fields object at all. -/
theorem closeIssue_skipped_no_calls_but_line_witness :
    skippedRecord (some ⟨none, some "P-8", none⟩) = true ∧
    (closeIssue envNoTrans (some ⟨none, some "P-8", none⟩) = (Except.ok none, ⟨0, 0⟩) ∧
     closeIssuesLines envNoTrans [some ⟨none, some "P-8", none⟩] = ["undefined"]) :=
  ⟨by decide,
   closeIssue_skipped_no_calls_but_line envNoTrans (some ⟨none, some "P-8", none⟩) (by decide)⟩

/-! ## C6: which handlers absorb their failures -/

/-- The query string built for a fix-version lookup is never empty. -/
theorem fixVersion_query_isEmpty_false (version : String) :
    ("fixVersion=" ++ version).isEmpty = false := by
  rw [Bool.eq_false_iff]
  intro h
  have h2 : ("fixVersion=" ++ version) = "" := (String.isEmpty_iff _).mp h
  have h3 : ("fixVersion=" ++ version).length = 0 := by rw [h2]; rfl
  rw [String.length_append] at h3
  have h4 : "fixVersion=".length = 11 := by decide
  omega

/-- C6 counterexample: the Close-Issues handler does not catch a failing
`transitionIssue` call — the rejection propagates out of `closeIssues`
instead of being absorbed, so not every command handler swallows its own
failures. -/
theorem closeIssues_propagates_rejection :
    (closeIssues envApplyFails [some issueResolvedP1]).fst =
      Except.error "HTTP 500" := rfl

/-- C6 amended: the query-based part of the policy does hold — when the
tracker query rejects, `search` absorbs the failure and Release-Notes
returns null rather than throwing. -/
theorem generateReleaseNotes_query_failure_returns_null (env : NotesEnv)
    (version : String) (e : String)
    (he : env.searchResult = Except.error e) :
    generateReleaseNotes env version = Except.ok none := by
  by_cases hv : version.isEmpty
  · simp [generateReleaseNotes, getIssuesByFixVersion, hv]
  · simp [generateReleaseNotes, getIssuesByFixVersion, hv, searchIssues,
      fixVersion_query_isEmpty_false, he]

/-- C6 witness: evaluated on a concrete rejecting query environment. -/
theorem generateReleaseNotes_query_failure_returns_null_witness :
    (NotesEnv.mk (Except.error "boom")).searchResult = Except.error "boom" ∧
    generateReleaseNotes (NotesEnv.mk (Except.error "boom")) "9.9" = Except.ok none :=
  ⟨rfl, generateReleaseNotes_query_failure_returns_null
    (NotesEnv.mk (Except.error "boom")) "9.9" "boom" rfl⟩

/-! ## C4 and C9: Release-Notes categorization -/

/-- Predicate of the first branch of the if/else chain. -/
def isNewFeature (d : NoteData) : Bool := d.type == "New Feature"

/-- Predicate of the second branch of the if/else chain. -/
def isImprovement (d : NoteData) : Bool := d.type == "Improvement"

/-- Predicate of the third branch of the if/else chain. -/
def isBug (d : NoteData) : Bool := d.type == "Bug"

/-- Predicate of the catch-all else branch. -/
def isOtherType (d : NoteData) : Bool :=
  !isNewFeature d && !isImprovement d && !isBug d

/-- The sequence of `data` records the `forEach` builds, in input order;
errors at the first issue whose field access throws. -/
def noteDatas : List Issue → Except String (List NoteData)
  | [] => Except.ok []
  | i :: rest =>
    match toNoteData i with
    | Except.error e => Except.error e
    | Except.ok d =>
      match noteDatas rest with
      | Except.error e => Except.error e
      | Except.ok ds => Except.ok (d :: ds)

theorem categorize_eq_filters (is : List Issue) (ds : List NoteData)
    (h : noteDatas is = Except.ok ds) :
    categorize is = Except.ok
      (ds.filter isNewFeature, ds.filter isImprovement, ds.filter isBug,
       ds.filter isOtherType) := by
  induction is generalizing ds with
  | nil =>
    simp only [noteDatas] at h
    injection h with h2
    subst h2
    rfl
  | cons i rest ih =>
    simp only [noteDatas] at h
    cases htd : toNoteData i with
    | error e => rw [htd] at h; exact Except.noConfusion h
    | ok d =>
      rw [htd] at h
      cases hnd : noteDatas rest with
      | error e => rw [hnd] at h; exact Except.noConfusion h
      | ok ds' =>
        rw [hnd] at h
        injection h with h2
        subst h2
        have ihr := ih ds' hnd
        by_cases h1 : d.type = "New Feature"
        · simp [categorize, htd, ihr, h1, List.filter_cons, isNewFeature,
            isImprovement, isBug, isOtherType]
        · by_cases h2 : d.type = "Improvement"
          · simp [categorize, htd, ihr, h1, h2, List.filter_cons, isNewFeature,
              isImprovement, isBug, isOtherType]
          · by_cases h3 : d.type = "Bug"
            · simp [categorize, htd, ihr, h1, h2, h3, List.filter_cons,
                isNewFeature, isImprovement, isBug, isOtherType]
            · simp [categorize, htd, ihr, h1, h2, h3, List.filter_cons,
                isNewFeature, isImprovement, isBug, isOtherType]

theorem noteDatas_length (is : List Issue) (ds : List NoteData)
    (h : noteDatas is = Except.ok ds) : ds.length = is.length := by
  induction is generalizing ds with
  | nil =>
    simp only [noteDatas] at h
    injection h with h2
    subst h2
    rfl
  | cons i rest ih =>
    simp only [noteDatas] at h
    cases htd : toNoteData i with
    | error e => rw [htd] at h; exact Except.noConfusion h
    | ok d =>
      rw [htd] at h
      cases hnd : noteDatas rest with
      | error e => rw [hnd] at h; exact Except.noConfusion h
      | ok ds' =>
        rw [hnd] at h
        injection h with h2
        subst h2
        simp [ih ds' hnd]

theorem filter_partition_length (ds : List NoteData) :
    (ds.filter isNewFeature).length + (ds.filter isImprovement).length +
      (ds.filter isBug).length + (ds.filter isOtherType).length = ds.length := by
  induction ds with
  | nil => rfl
  | cons d ds ih =>
    by_cases h1 : d.type = "New Feature"
    · simp [List.filter_cons, isNewFeature, isImprovement, isBug, isOtherType, h1]
      omega
    · by_cases h2 : d.type = "Improvement"
      · simp [List.filter_cons, isNewFeature, isImprovement, isBug, isOtherType,
          h1, h2]
        omega
      · by_cases h3 : d.type = "Bug"
        · simp [List.filter_cons, isNewFeature, isImprovement, isBug,
            isOtherType, h1, h2, h3]
          omega
        · simp [List.filter_cons, isNewFeature, isImprovement, isBug,
            isOtherType, h1, h2, h3]
          omega

theorem categorize_error (is : List Issue) (e : String)
    (h : noteDatas is = Except.error e) : categorize is = Except.error e := by
  induction is with
  | nil => simp only [noteDatas] at h; exact Except.noConfusion h
  | cons i rest ih =>
    simp only [noteDatas] at h
    cases htd : toNoteData i with
    | error e2 =>
      rw [htd] at h
      injection h with h2
      subst h2
      simp [categorize, htd]
    | ok d =>
      rw [htd] at h
      cases hnd : noteDatas rest with
      | error e2 =>
        rw [hnd] at h
        injection h with h2
        subst h2
        simp [categorize, htd, ih hnd]
      | ok ds' => rw [hnd] at h; exact Except.noConfusion h

/-- C4: on a successfully fetched issue list whose records all categorize,
Release-Notes returns null for an empty list and otherwise the four
categories are exactly the order-preserving filters of the input records
by type, so they partition the input (no duplication, no omission). -/
theorem generateReleaseNotes_partitions (env : NotesEnv) (version : String)
    (is : List Issue) (ds : List NoteData)
    (hq : getIssuesByFixVersion env version = some is)
    (hds : noteDatas is = Except.ok ds) :
    (is = [] → generateReleaseNotes env version = Except.ok none) ∧
    (is ≠ [] →
      generateReleaseNotes env version = Except.ok (some
        ⟨version, ds.filter isNewFeature, ds.filter isImprovement,
         ds.filter isBug, ds.filter isOtherType⟩) ∧
      (ds.filter isNewFeature).length + (ds.filter isImprovement).length +
        (ds.filter isBug).length + (ds.filter isOtherType).length = is.length) := by
  constructor
  · intro hnil
    subst hnil
    simp [generateReleaseNotes, hq]
  · intro hne
    have hie : is.isEmpty = false := by
      cases is with
      | nil => exact absurd rfl hne
      | cons a as => rfl
    refine ⟨?_, ?_⟩
    · simp [generateReleaseNotes, hq, hie, categorize_eq_filters is ds hds]
    · rw [filter_partition_length ds, noteDatas_length is ds hds]

/-- An issue with a given key and issue-type name (all other fields empty,
a fields object present). -/
def typedIssue (k t : String) : Issue :=
  ⟨none, some k, some ⟨some "s", none, some ⟨t⟩, none, some "desc"⟩⟩

/-- The spec's end-to-end example input for Release-Notes. -/
def notesIssues : List Issue :=
  [typedIssue "N-1" "New Feature", typedIssue "N-2" "Bug",
   typedIssue "N-3" "Weird", typedIssue "N-4" "Improvement"]

/-- The records `notesIssues` categorizes into. -/
def notesDs : List NoteData :=
  [⟨some "N-1", "New Feature", some "desc"⟩, ⟨some "N-2", "Bug", some "desc"⟩,
   ⟨some "N-3", "Weird", some "desc"⟩, ⟨some "N-4", "Improvement", some "desc"⟩]

def envNotesOk : NotesEnv := ⟨Except.ok (some notesIssues)⟩

/-- C4 witness: evaluated on the spec's four-type example. -/
theorem generateReleaseNotes_partitions_witness :
    generateReleaseNotes envNotesOk "1.0" = Except.ok (some
      ⟨"1.0", notesDs.filter isNewFeature, notesDs.filter isImprovement,
       notesDs.filter isBug, notesDs.filter isOtherType⟩) ∧
    (notesDs.filter isNewFeature).length + (notesDs.filter isImprovement).length +
      (notesDs.filter isBug).length + (notesDs.filter isOtherType).length =
      notesIssues.length :=
  (generateReleaseNotes_partitions envNotesOk "1.0" notesIssues notesDs
    rfl rfl).2 (by decide)

/-- An issue whose fields object exists but whose issuetype is missing. -/
def issueNoType : Issue := ⟨none, some "P-7", some ⟨some "s", none, none, none, none⟩⟩

def envNotesBadType : NotesEnv := ⟨Except.ok (some [issueNoType])⟩

/-- C9 counterexample: an issue whose issue-type field is missing is not
placed in the Other category — reading `i.fields.issuetype.name` throws a
TypeError and the whole Release-Notes handler rejects. -/
theorem generateReleaseNotes_throws_on_missing_type :
    generateReleaseNotes envNotesBadType "1.0" = Except.error "TypeError" := rfl

/-- C9 amended: every record in a named category has the issue type of that
category's label, and Other is the catch-all for every present-but-unmatched
type value; an issue whose issue-type is missing or null instead makes the
categorization throw, and the handler rejects with that TypeError. -/
theorem generateReleaseNotes_other_catch_all (env : NotesEnv) (version : String)
    (is : List Issue)
    (hq : getIssuesByFixVersion env version = some is) (hne : is ≠ []) :
    (∀ ds, noteDatas is = Except.ok ds →
      ∃ notes, generateReleaseNotes env version = Except.ok (some notes) ∧
        (∀ d ∈ notes.newFeatures, d.type = "New Feature") ∧
        (∀ d ∈ notes.improved, d.type = "Improvement") ∧
        (∀ d ∈ notes.fixes, d.type = "Bug") ∧
        (∀ d ∈ ds, d.type ≠ "New Feature" → d.type ≠ "Improvement" →
          d.type ≠ "Bug" → d ∈ notes.other)) ∧
    (∀ e, noteDatas is = Except.error e →
      generateReleaseNotes env version = Except.error e) := by
  have hie : is.isEmpty = false := by
    cases is with
    | nil => exact absurd rfl hne
    | cons a as => rfl
  constructor
  · intro ds hds
    refine ⟨⟨version, ds.filter isNewFeature, ds.filter isImprovement,
      ds.filter isBug, ds.filter isOtherType⟩, ?_, ?_, ?_, ?_, ?_⟩
    · simp [generateReleaseNotes, hq, hie, categorize_eq_filters is ds hds]
    · intro d hd
      have := (List.mem_filter.mp hd).2
      simpa [isNewFeature] using this
    · intro d hd
      have := (List.mem_filter.mp hd).2
      simpa [isImprovement] using this
    · intro d hd
      have := (List.mem_filter.mp hd).2
      simpa [isBug] using this
    · intro d hd h1 h2 h3
      refine List.mem_filter.mpr ⟨hd, ?_⟩
      simp [isOtherType, isNewFeature, isImprovement, isBug, h1, h2, h3]
  · intro e he
    simp [generateReleaseNotes, hq, hie, categorize_error is e he]

/-- C9 witness: evaluated on the example containing the unmatched type
"Weird". -/
theorem generateReleaseNotes_other_catch_all_witness :
    ∃ notes, generateReleaseNotes envNotesOk "1.0" = Except.ok (some notes) ∧
      (∀ d ∈ notes.newFeatures, d.type = "New Feature") ∧
      (∀ d ∈ notes.improved, d.type = "Improvement") ∧
      (∀ d ∈ notes.fixes, d.type = "Bug") ∧
      (∀ d ∈ notesDs, d.type ≠ "New Feature" → d.type ≠ "Improvement" →
        d.type ≠ "Bug" → d ∈ notes.other) :=
  (generateReleaseNotes_other_catch_all envNotesOk "1.0" notesIssues
    rfl (by decide)).1 notesDs rfl

/-! ## C5 and C7: Set-Version -/

/-- The update-eligibility test of the loop: not Closed and no fix-version
yet. -/
def eligibleIssue (i : Issue) : Bool :=
  !isIssueClosed i && !doesIssueHaveFixVersion i

theorem setVersionLoop_characterization (env : SetVersionEnv)
    (issues : List Issue)
    (hupd : ∀ i ∈ issues, eligibleIssue i = true →
      env.updateIssue i.id = Except.ok ()) :
    setVersionLoop env issues = Except.ok
      (issues.map (fun i =>
        if eligibleIssue i then updatedLine i.key else skipLine i.key),
       (issues.filter eligibleIssue).map (fun i => i.id)) := by
  induction issues with
  | nil => rfl
  | cons i rest ih =>
    have ihr := ih (fun j hj hje => hupd j (List.mem_cons_of_mem i hj) hje)
    by_cases he : eligibleIssue i = true
    · have hu := hupd i (List.mem_cons_self i rest) he
      simp only [eligibleIssue] at he
      have he2 := he
      simp only [Bool.and_eq_true, Bool.not_eq_true'] at he2
      simp [setVersionLoop, he, he2, hu, ihr, List.filter_cons, eligibleIssue]
    · simp only [eligibleIssue] at he
      have he2 := he
      simp only [Bool.and_eq_true, Bool.not_eq_true'] at he2
      simp [setVersionLoop, he, he2, ihr, List.filter_cons, eligibleIssue]

/-- C5: when the sprint, board issues and version all resolve and every
update call succeeds, the ids passed to `updateIssue` are exactly those of
the issues that are neither Closed nor already versioned (every other issue
gets the skip line), and the final tally reports the number of update calls
made out of the sprint's total issue count. -/
theorem setVersion_updates_only_eligible (env : SetVersionEnv) (version : String)
    (sp : Sprint) (sps : List Sprint) (bi : Option (List Issue))
    (vs : Option (List (Option VersionObj))) (vo : VersionObj)
    (hsp : env.sprintValues = Except.ok (sp :: sps))
    (hid : jsTruthy sp.id = true)
    (hbi : env.boardIssues = Except.ok bi)
    (hvs : env.versions = Except.ok vs)
    (hfv : findVersion (vs.getD []) version = some vo)
    (hupd : ∀ i ∈ bi.getD [], eligibleIssue i = true →
      env.updateIssue i.id = Except.ok ()) :
    setVersion env version = Except.ok
      (settingHeader version ::
        ((bi.getD []).map (fun i =>
          if eligibleIssue i then updatedLine i.key else skipLine i.key) ++
         [tallyLine ((bi.getD []).filter eligibleIssue).length
            (bi.getD []).length]),
       ((bi.getD []).filter eligibleIssue).map (fun i => i.id)) := by
  have hloop := setVersionLoop_characterization env (bi.getD []) hupd
  simp [setVersion, hsp, hid, hbi, hvs, hfv, hloop, List.length_map]

/-- A sprint issue that is already Closed. -/
def svIssueClosed : Issue := ⟨some "101", some "S-1", some (statusFields "Closed")⟩

/-- A sprint issue that already carries a fix-version. -/
def svIssueVersioned : Issue :=
  ⟨some "102", some "S-2",
   some ⟨none, some ⟨"Open"⟩, none, some [⟨"9.9", some "v9"⟩], none⟩⟩

/-- A sprint issue that is open and unversioned. -/
def svIssueOpen : Issue := ⟨some "103", some "S-3", some (statusFields "Open")⟩

/-- An environment with one active sprint, three issues and the version
"1.0" present. -/
def envSetVersion : SetVersionEnv :=
  ⟨Except.ok [⟨some "7"⟩],
   Except.ok (some [svIssueClosed, svIssueVersioned, svIssueOpen]),
   Except.ok (some [some ⟨"1.0", some "v1"⟩]),
   fun _ => Except.ok ()⟩

/-- C5 witness: of three sprint issues only the open unversioned one is
updated, the other two are reported skipped, and the tally reads 1 of 3. -/
theorem setVersion_updates_only_eligible_witness :
    setVersion envSetVersion "1.0" = Except.ok
      ([settingHeader "1.0", skipLine (some "S-1"), skipLine (some "S-2"),
        updatedLine (some "S-3"), tallyLine 1 3],
       [some "103"]) :=
  setVersion_updates_only_eligible envSetVersion "1.0" ⟨some "7"⟩ []
    (some [svIssueClosed, svIssueVersioned, svIssueOpen])
    (some [some ⟨"1.0", some "v1"⟩]) ⟨"1.0", some "v1"⟩
    rfl rfl rfl rfl rfl (fun _ _ _ => rfl)

/-- C7: both lookup-failure cases abort with zero `updateIssue` calls —
when the active-sprint list is empty (or its first entry has no usable id),
only the header and "Active sprint not found" are printed; when no project
version's name equals the target, only the header and the
version-not-found line are printed, and no version is created (the handler
contains no creation call at all). -/
theorem setVersion_aborts_without_updates (env : SetVersionEnv)
    (version : String) :
    (∀ sps, env.sprintValues = Except.ok sps →
      (∀ sp, sps.head? = some sp → jsTruthy sp.id = false) →
      setVersion env version =
        Except.ok ([settingHeader version, sprintNotFoundLine], [])) ∧
    (∀ sp sps bi vs, env.sprintValues = Except.ok (sp :: sps) →
      jsTruthy sp.id = true →
      env.boardIssues = Except.ok bi →
      env.versions = Except.ok vs →
      findVersion (vs.getD []) version = none →
      setVersion env version =
        Except.ok ([settingHeader version, versionNotFoundLine version], [])) := by
  constructor
  · intro sps hsp hfals
    cases sps with
    | nil => simp [setVersion, hsp]
    | cons sp rest =>
      have hf := hfals sp rfl
      simp [setVersion, hsp, hf]
  · intro sp sps bi vs hsp hid hbi hvs hfv
    simp [setVersion, hsp, hid, hbi, hvs, hfv]

/-- An environment whose active-sprint lookup returns no sprints. -/
def envNoSprint : SetVersionEnv :=
  ⟨Except.ok [], Except.ok (some []), Except.ok (some []),
   fun _ => Except.ok ()⟩

/-- An environment with an active sprint but no matching project version. -/
def envNoVersion : SetVersionEnv :=
  ⟨Except.ok [⟨some "7"⟩], Except.ok (some [svIssueOpen]),
   Except.ok (some [some ⟨"2.0", some "v2"⟩]),
   fun _ => Except.ok ()⟩

/-- C7 witness: both abort cases evaluated on concrete environments. -/
theorem setVersion_aborts_without_updates_witness :
    setVersion envNoSprint "1.0" =
      Except.ok ([settingHeader "1.0", sprintNotFoundLine], []) ∧
    setVersion envNoVersion "1.0" =
      Except.ok ([settingHeader "1.0", versionNotFoundLine "1.0"], []) :=
  ⟨(setVersion_aborts_without_updates envNoSprint "1.0").1 [] rfl
     (fun sp hsp => Option.noConfusion hsp),
   (setVersion_aborts_without_updates envNoVersion "1.0").2 ⟨some "7"⟩ []
     (some [svIssueOpen]) (some [some ⟨"2.0", some "v2"⟩]) rfl rfl rfl rfl rfl⟩

end JiraUtil
